import Mathlib

set_option linter.unusedVariables false

/-! Shallow embedding of the Gemini client in src/src/main.rs:
the content data model, the serde wire codec, and the conversation
engine operations of `GeminiClient`. -/

namespace Gemini

/-- JSON values, modelling `serde_json::Value`. Numbers are modelled as
integers, which covers every number the embedded code constructs. -/
inductive Json where
  | null : Json
  | bool (b : Bool) : Json
  | num (n : Int) : Json
  | str (s : String) : Json
  | arr (elems : List Json) : Json
  | obj (fields : List (String × Json)) : Json

/-- First-match key lookup in a JSON object (objects produced by
`serde_json` have unique keys, so first-match agrees with map lookup). -/
def Json.lookup : Json → String → Option Json
  | .obj fields, key => List.lookup key fields
  | _, _ => none

/-- Whether a JSON value is an object carrying the given key. -/
def Json.hasKey (j : Json) (key : String) : Bool :=
  (j.lookup key).isSome

/-- Top-level key list of a JSON object, in emission order. -/
def Json.keys : Json → List String
  | .obj fields => fields.map Prod.fst
  | _ => []

/-! ## Content model (src/src/main.rs lines 34-136) -/

/-- `GeminiError` (main.rs 11-18). -/
inductive GeminiError where
  | apiKeyNotFound : GeminiError
  | networkError (msg : String) : GeminiError
  | parseError (msg : String) : GeminiError
  | apiError (msg : String) : GeminiError
  | fileError (msg : String) : GeminiError

/-- `FunctionCall` (main.rs 64-68). -/
structure FunctionCall where
  name : String
  args : Json

/-- `FunctionResponse` (main.rs 70-74). -/
structure FunctionResponse where
  name : String
  response : Json

/-- `PropertySchema` (main.rs 50-57); `property_type` serialized as
`type`, `enum_values` as `enum` and skipped when `none`. -/
structure PropertySchema where
  property_type : String
  description : String
  enum_values : Option (List String)

/-- `FunctionParameters` (main.rs 42-48); `param_type` serialized as
`type`. The `HashMap` of properties is modelled as an association list. -/
structure FunctionParameters where
  param_type : String
  properties : List (String × PropertySchema)
  required : List String

/-- `FunctionDeclaration` (main.rs 35-40). -/
structure FunctionDeclaration where
  name : String
  description : String
  parameters : FunctionParameters

/-- `Tool` (main.rs 59-62): field `function_declarations` carries no
serde rename attribute. -/
structure Tool where
  function_declarations : List FunctionDeclaration

/-- Request-side `Part` (main.rs 88-100), an untagged serde enum whose
renamed fields are `functionCall` and `functionResponse`. -/
inductive Part where
  | text (text : String) : Part
  | functionCall (function_call : FunctionCall) : Part
  | functionResponse (function_response : FunctionResponse) : Part

/-- `Content` (main.rs 77-81). -/
structure Content where
  role : String
  parts : List Part

/-- `SystemInstruction` (main.rs 83-86). -/
structure SystemInstruction where
  parts : List Part

/-- `GenerateContentRequest` (main.rs 102-108): `tools` is skipped when
`none`; neither `system_instruction` nor `tools` carries a rename. -/
structure GenerateContentRequest where
  system_instruction : SystemInstruction
  contents : List Content
  tools : Option (List Tool)

/-- Response-side `ResponsePart` (main.rs 128-136): an untagged serde
enum with only `Text` and `FunctionCall` variants. -/
inductive ResponsePart where
  | text (text : String) : ResponsePart
  | functionCall (function_call : FunctionCall) : ResponsePart

/-- `ResponseContent` (main.rs 123-126). -/
structure ResponseContent where
  parts : List ResponsePart

/-- `Candidate` (main.rs 116-121); `finish_reason` deserialized from
`finishReason`. -/
structure Candidate where
  content : ResponseContent
  finish_reason : Option String

/-- `GenerateContentResponse` (main.rs 111-114). -/
structure GenerateContentResponse where
  candidates : List Candidate

/-! ## Wire codec: serialization (serde `Serialize` derives)

Struct fields are emitted in declaration order; `#[serde(rename)]`
attributes are applied; `skip_serializing_if = "Option::is_none"`
fields are omitted when `None`; an untagged enum variant is emitted as
the serialization of its single field struct. -/

def encodeFunctionCall (fc : FunctionCall) : Json :=
  .obj [("name", .str fc.name), ("args", fc.args)]

def encodeFunctionResponse (fr : FunctionResponse) : Json :=
  .obj [("name", .str fr.name), ("response", fr.response)]

def encodePart : Part → Json
  | .text t => .obj [("text", .str t)]
  | .functionCall fc => .obj [("functionCall", encodeFunctionCall fc)]
  | .functionResponse fr => .obj [("functionResponse", encodeFunctionResponse fr)]

def encodeContent (c : Content) : Json :=
  .obj [("role", .str c.role), ("parts", .arr (c.parts.map encodePart))]

def encodeSystemInstruction (si : SystemInstruction) : Json :=
  .obj [("parts", .arr (si.parts.map encodePart))]

def encodePropertySchema (p : PropertySchema) : Json :=
  .obj ([("type", .str p.property_type), ("description", .str p.description)] ++
    (match p.enum_values with
     | none => []
     | some vs => [("enum", .arr (vs.map Json.str))]))

def encodeFunctionParameters (fp : FunctionParameters) : Json :=
  .obj [("type", .str fp.param_type),
        ("properties", .obj (fp.properties.map (fun kv => (kv.1, encodePropertySchema kv.2)))),
        ("required", .arr (fp.required.map Json.str))]

def encodeFunctionDeclaration (fd : FunctionDeclaration) : Json :=
  .obj [("name", .str fd.name), ("description", .str fd.description),
        ("parameters", encodeFunctionParameters fd.parameters)]

def encodeTool (t : Tool) : Json :=
  .obj [("function_declarations", .arr (t.function_declarations.map encodeFunctionDeclaration))]

def encodeRequest (r : GenerateContentRequest) : Json :=
  .obj ([("system_instruction", encodeSystemInstruction r.system_instruction),
         ("contents", .arr (r.contents.map encodeContent))] ++
    (match r.tools with
     | none => []
     | some ts => [("tools", .arr (ts.map encodeTool))]))

/-! ## Wire codec: deserialization (serde `Deserialize` derives)

A derived struct decoder requires a JSON object, requires each
non-`Option` field to be present with the right type, treats a missing
`Option` field (or a `null` one) as `None`, and ignores unknown keys.
An untagged enum decoder tries the variants in declaration order and
returns the first that succeeds, failing only if all variants fail. -/

def decodeString : Json → Option String
  | .str s => some s
  | _ => none

def decodeFunctionCall (j : Json) : Option FunctionCall :=
  match j with
  | .obj _ =>
    match (j.lookup "name").bind decodeString, j.lookup "args" with
    | some name, some args => some ⟨name, args⟩
    | _, _ => none
  | _ => none

def decodeResponsePart (j : Json) : Option ResponsePart :=
  match (j.lookup "text").bind decodeString with
  | some t => some (.text t)
  | none =>
    match (j.lookup "functionCall").bind decodeFunctionCall with
    | some fc => some (.functionCall fc)
    | none => none

def decodeList (dec : Json → Option α) : Json → Option (List α)
  | .arr elems => elems.mapM dec
  | _ => none

def decodeResponseContent (j : Json) : Option ResponseContent :=
  match j with
  | .obj _ =>
    match (j.lookup "parts").bind (decodeList decodeResponsePart) with
    | some parts => some ⟨parts⟩
    | none => none
  | _ => none

def decodeOptString : Option Json → Option (Option String)
  | none => some none
  | some .null => some none
  | some (.str s) => some (some s)
  | some _ => none

def decodeCandidate (j : Json) : Option Candidate :=
  match j with
  | .obj _ =>
    match (j.lookup "content").bind decodeResponseContent,
          decodeOptString (j.lookup "finishReason") with
    | some content, some fr => some ⟨content, fr⟩
    | _, _ => none
  | _ => none

def decodeResponse (j : Json) : Option GenerateContentResponse :=
  match j with
  | .obj _ =>
    match (j.lookup "candidates").bind (decodeList decodeCandidate) with
    | some cs => some ⟨cs⟩
    | none => none
  | _ => none

/-! ## Conversation engine (`GeminiClient`, main.rs 170-338)

The transport port (`SimpleHttpClient::post` plus the JSON text layer)
is modelled as a function from the encoded request document to either a
failure message or the parsed response document. Serialization of the
request types in the source cannot fail (all map keys are strings), so
`encodeRequest` is total; response deserialization failure is the
`decodeResponse = none` case. -/

/-- A transport: consumes the encoded request body and produces the
parsed response body or a transport failure message. -/
def Transport : Type := Json → Except String Json

/-- `GeminiClient` (main.rs 171-177). -/
structure GeminiClient where
  api_key : String
  base_url : String
  system_instruction : SystemInstruction
  functions : List FunctionDeclaration

/-- `REAL_HOST` (main.rs 199). -/
def REAL_HOST : String := "generativelanguage.googleapis.com"

/-- `GeminiClient::new_with_instructions` (main.rs 218-229): stores the
arguments verbatim; performs no validation and cannot fail. -/
def new_with_instructions (api_key : String) (system_instruction : SystemInstruction)
    (functions : List FunctionDeclaration) : GeminiClient :=
  { api_key := api_key
    base_url := "https://" ++ REAL_HOST ++ "/v1beta"
    system_instruction := system_instruction
    functions := functions }

/-- Whether the required property names of a declaration are all among
its declared property names (the validation the spec describes; the
source performs it nowhere). -/
def required_subset_ok (d : FunctionDeclaration) : Bool :=
  d.parameters.required.all (fun r => d.parameters.properties.any (fun p => p.1 == r))

/-- `GeminiClient::generate_content` (main.rs 322-337): serialize the
request, post it, deserialize the response body. -/
def generate_content (client : GeminiClient) (transport : Transport)
    (request : GenerateContentRequest) : Except GeminiError GenerateContentResponse :=
  let body := encodeRequest request
  match transport body with
  | .error e => .error (.networkError ("Request failed: " ++ e))
  | .ok responseBody =>
    match decodeResponse responseBody with
    | none => .error (.parseError "Deserialization error")
    | some response => .ok response

/-- The system instruction hard-coded inside `generate_text`
(main.rs 247-251) and in the default constructors. -/
def defaultSystemInstruction : SystemInstruction :=
  ⟨[Part.text "あなたは親切なアシスタントです。"]⟩

/-- The request `generate_text` builds (main.rs 246-259). It does not
read the client at all: the system instruction is the hard-coded
default and `tools` is `none`. -/
def generate_text_request (prompt : String) : GenerateContentRequest :=
  { system_instruction := defaultSystemInstruction
    contents := [{ role := "user", parts := [Part.text prompt] }]
    tools := none }

/-- `GeminiClient::generate_text` (main.rs 245-270). -/
def generate_text (client : GeminiClient) (transport : Transport)
    (prompt : String) : Except GeminiError String :=
  match generate_content client transport (generate_text_request prompt) with
  | .error e => .error e
  | .ok response =>
    match response.candidates.head? with
    | some candidate =>
      match candidate.content.parts.head? with
      | some (.text t) => .ok t
      | _ => .error (.apiError "No text response found")
    | none => .error (.apiError "No text response found")

/-- The request `generate_with_functions` builds (main.rs 277-288):
the configured system instruction, a single user message, and always a
one-element `tools` list wrapping the configured declarations. -/
def generate_with_functions_request (client : GeminiClient) (prompt : String) :
    GenerateContentRequest :=
  { system_instruction := client.system_instruction
    contents := [{ role := "user", parts := [Part.text prompt] }]
    tools := some [⟨client.functions⟩] }

/-- `GeminiClient::generate_with_functions` (main.rs 273-291). -/
def generate_with_functions (client : GeminiClient) (transport : Transport)
    (prompt : String) : Except GeminiError GenerateContentResponse :=
  generate_content client transport (generate_with_functions_request client prompt)

/-- The message `continue_with_function_result` pushes (main.rs
300-308): role `user`, a single `FunctionResponse` part. -/
def function_result_message (function_name : String) (result : Json) : Content :=
  { role := "user", parts := [Part.functionResponse ⟨function_name, result⟩] }

/-- The request `continue_with_function_result` builds (main.rs
310-316): the configured system instruction, the whole conversation as
contents, and always a one-element `tools` list. -/
def continue_request (client : GeminiClient) (conversation : List Content) :
    GenerateContentRequest :=
  { system_instruction := client.system_instruction
    contents := conversation
    tools := some [⟨client.functions⟩] }

/-- `GeminiClient::continue_with_function_result` (main.rs 294-319).
The Rust function mutates `conversation` through `&mut`; the embedding
returns the updated conversation alongside the call result. The push
happens first, then the request is built from the updated conversation
and sent. -/
def continue_with_function_result (client : GeminiClient) (transport : Transport)
    (conversation : List Content) (function_name : String) (result : Json) :
    List Content × Except GeminiError GenerateContentResponse :=
  let conversation' := conversation ++ [function_result_message function_name result]
  (conversation',
    generate_content client transport (continue_request client conversation'))

/-! ## Concrete fixtures used by counterexamples and witnesses -/

/-- A client configured through `new_with_instructions` with no
declared functions. -/
def plainClient : GeminiClient := new_with_instructions "key" ⟨[]⟩ []

/-- A client configured with a custom system instruction. -/
def strictClient : GeminiClient := new_with_instructions "key" ⟨[Part.text "X"]⟩ []

/-- A response body with one candidate holding a single Text part. -/
def stubTextBody : Json :=
  .obj [("candidates", .arr [.obj [("content",
    .obj [("parts", .arr [.obj [("text", .str "ok")]])])]])]

/-- A response body whose candidates list is empty. -/
def emptyCandidatesBody : Json := .obj [("candidates", .arr [])]

/-- A Part-shaped object carrying two of the three discriminator keys. -/
def twoKeyPart : Json :=
  .obj [("text", .str "hi"),
        ("functionCall", .obj [("name", .str "f"), ("args", .null)])]

/-- A declaration whose required list names a property that is not
declared. -/
def badDeclaration : FunctionDeclaration :=
  { name := "get_file_content"
    description := "Get the contents of the specified file"
    parameters := { param_type := "object", properties := [], required := ["file_path"] } }

/-- A request with a configured tools list, used to inspect emitted keys. -/
def demoRequest : GenerateContentRequest :=
  { system_instruction := ⟨[]⟩, contents := [], tools := some [⟨[]⟩] }

/-- The first Text part of a system instruction, used to separate two
concrete instructions. -/
def SystemInstruction.firstText : SystemInstruction → Option String
  | ⟨Part.text t :: _⟩ => some t
  | _ => none

/-- The response-side part as a request-side part (the two Rust types
share their Text and FunctionCall shapes). -/
def ResponsePart.toPart : ResponsePart → Part
  | .text t => .text t
  | .functionCall fc => .functionCall fc

/-! ## Helper lemmas -/

/-- When the transport returns a body that decodes, `generate_content`
returns the decoded response. -/
theorem generate_content_ok (client : GeminiClient) (transport : Transport)
    (request : GenerateContentRequest) (body : Json) (r : GenerateContentResponse)
    (htr : transport (encodeRequest request) = .ok body)
    (hdec : decodeResponse body = some r) :
    generate_content client transport request = .ok r := by
  unfold generate_content
  dsimp only
  rw [htr]
  dsimp only
  rw [hdec]

/-! ## Claims -/

/-- Claim C1 (confirmed): `continue_with_function_result` appends
exactly one new `user`-role message whose single part is
`FunctionResponse(function_name, result)` to the conversation, and the
request it sends carries the entire accumulated history — every prior
message plus the new one, in original order — as its contents. -/
theorem continue_appends_and_resends_history (client : GeminiClient)
    (transport : Transport) (conversation : List Content) (n : String) (v : Json) :
    (continue_with_function_result client transport conversation n v).1 =
      conversation ++ [{ role := "user", parts := [Part.functionResponse ⟨n, v⟩] }] ∧
    (continue_request client
        ((continue_with_function_result client transport conversation n v).1)).contents =
      conversation ++ [{ role := "user", parts := [Part.functionResponse ⟨n, v⟩] }] ∧
    (continue_with_function_result client transport conversation n v).2 =
      generate_content client transport (continue_request client
        (conversation ++ [{ role := "user", parts := [Part.functionResponse ⟨n, v⟩] }])) :=
  ⟨rfl, rfl, rfl⟩

/-- Claim C2 (confirmed): when the transport answers the request built
by `generate_text` with a body that decodes to response `r`,
`generate_text` returns the string of the first part of the first
candidate when that part is Text, and fails with `ApiError` otherwise —
including when the first part is a FunctionCall and when there are no
candidates. -/
theorem generate_text_first_part (client : GeminiClient) (transport : Transport)
    (prompt : String) (body : Json) (r : GenerateContentResponse)
    (htr : transport (encodeRequest (generate_text_request prompt)) = .ok body)
    (hdec : decodeResponse body = some r) :
    generate_text client transport prompt =
      match r.candidates.head? with
      | some candidate =>
        match candidate.content.parts.head? with
        | some (.text t) => .ok t
        | _ => .error (.apiError "No text response found")
      | none => .error (.apiError "No text response found") := by
  unfold generate_text
  rw [generate_content_ok client transport _ body r htr hdec]

/-- Witness for C2: a stub transport returning one candidate with the
single Text part "ok" makes `generate_text` return "ok". -/
theorem generate_text_first_part_witness :
    generate_text plainClient (fun _ => .ok stubTextBody) "Explain X" = .ok "ok" :=
  generate_text_first_part plainClient (fun _ => .ok stubTextBody) "Explain X"
    stubTextBody ⟨[⟨⟨[.text "ok"]⟩, none⟩]⟩ rfl rfl

/-- Counterexample to C3: the emitted document uses snake_case for the
two keys the claim names. On a concrete request with a tools entry, the
encoded document has no "systemInstruction" key and the encoded tool
has no "functionDeclarations" key; the keys actually present are
"system_instruction" and "function_declarations" (the Rust structs
carry no serde rename for these fields). -/
theorem wire_keys_counterexample :
    ((encodeRequest demoRequest).hasKey "systemInstruction" = false ∧
     (encodeRequest demoRequest).hasKey "system_instruction" = true) ∧
    ((encodeTool ⟨[]⟩).hasKey "functionDeclarations" = false ∧
     (encodeTool ⟨[]⟩).hasKey "function_declarations" = true) := by
  decide

/-- Claim C3 (corrected): for every encoded request the top-level keys
are exactly "system_instruction", "contents" and (when tools are
configured) "tools", and each tools entry has the single key
"function_declarations" — snake_case, not the camelCase the claim
states. -/
theorem wire_keys_snake_case (r : GenerateContentRequest) (t : Tool) :
    (encodeRequest r).keys =
      ["system_instruction", "contents"] ++
        (match r.tools with | none => [] | some _ => ["tools"]) ∧
    (encodeTool t).keys = ["function_declarations"] := by
  refine ⟨?_, rfl⟩
  rcases r with ⟨si, cs, ts⟩
  cases ts <;> rfl

/-- Counterexample to C4: a Part-shaped object with two of the three
discriminator keys present ("text" and "functionCall") does not fail to
decode; the untagged decoder returns the first matching variant. -/
theorem decode_two_keys_counterexample :
    decodeResponsePart twoKeyPart = some (.text "hi") := rfl

/-- Claim C4 (corrected): decoding fails when the object carries
neither a "text" key nor a "functionCall" key (in particular with zero
of the three discriminator keys present), but with two or more keys
present decoding succeeds instead of failing: a string "text" key wins
regardless of which other keys are present. -/
theorem decode_part_shape_amended (fields : List (String × Json)) :
    ((Json.obj fields).hasKey "text" = false →
     (Json.obj fields).hasKey "functionCall" = false →
      decodeResponsePart (.obj fields) = none) ∧
    (∀ t : String, (Json.obj fields).lookup "text" = some (.str t) →
      decodeResponsePart (.obj fields) = some (.text t)) := by
  constructor
  · intro h1 h2
    unfold decodeResponsePart
    cases hx : (Json.obj fields).lookup "text" with
    | some jt =>
      rw [Json.hasKey, hx] at h1
      simp at h1
    | none =>
      cases hy : (Json.obj fields).lookup "functionCall" with
      | some jf =>
        rw [Json.hasKey, hy] at h2
        simp at h2
      | none => rfl
  · intro t ht
    unfold decodeResponsePart
    rw [ht]
    rfl

/-- Witness for C4: the empty object fails to decode, and an object
carrying both "text" and "functionResponse" decodes as the Text part. -/
theorem decode_part_shape_amended_witness :
    decodeResponsePart (.obj []) = none ∧
    decodeResponsePart (.obj [("text", .str "w"),
      ("functionResponse", .obj [("name", .str "f"), ("response", .null)])]) =
      some (.text "w") :=
  ⟨(decode_part_shape_amended []).1 rfl rfl,
   (decode_part_shape_amended [("text", .str "w"),
      ("functionResponse", .obj [("name", .str "f"), ("response", .null)])]).2
     "w" rfl⟩

/-- Counterexample to C5: encoding a FunctionResult part and decoding
the result as a response part fails — the response-side decoder has no
functionResponse variant — so the round trip does not yield the
original part. -/
theorem roundtrip_function_result_counterexample :
    decodeResponsePart (encodePart (.functionResponse ⟨"get_file_content", .null⟩)) =
      none := rfl

/-- Claim C5 (corrected): the encode-then-decode round trip yields the
original part for Text and FunctionCall parts, but fails for
FunctionResult parts, whose wire shape the response decoder cannot
read. -/
theorem roundtrip_amended (p : Part) :
    (decodeResponsePart (encodePart p)).map ResponsePart.toPart =
      match p with
      | .functionResponse _ => none
      | _ => some p := by
  cases p <;> rfl

/-- Counterexample to C6: a client whose declared function list is
empty still gets a "tools" key in the document encoded for
`generate_with_functions`, contradicting the claim that an empty
declared function list yields no "tools" key. -/
theorem tools_key_empty_functions_counterexample :
    (encodeRequest (generate_with_functions_request plainClient "hi")).hasKey "tools" =
      true := by decide

/-- Claim C6 (corrected): only requests built with `tools = none` — as
`generate_text` builds them — omit the "tools" key; the two
function-calling operations always emit a "tools" key, even when the
declared function list is empty. -/
theorem tools_key_amended (client : GeminiClient) (prompt : String)
    (conversation : List Content) :
    (encodeRequest (generate_text_request prompt)).hasKey "tools" = false ∧
    (encodeRequest (generate_with_functions_request client prompt)).hasKey "tools" = true ∧
    (encodeRequest (continue_request client conversation)).hasKey "tools" = true :=
  ⟨rfl, rfl, rfl⟩

/-- Counterexample to C7: a client constructed with the system
instruction `[Text "X"]` still has `generate_text` build its request
with the hard-coded default instruction, not the configured one. -/
theorem generate_text_instruction_counterexample :
    (generate_text_request "p").system_instruction ≠ strictClient.system_instruction := by
  intro h
  exact absurd (congrArg SystemInstruction.firstText h) (by decide)

/-- Claim C7 (corrected): `generate_with_functions` and
`continue_with_function_result` build requests carrying the configured
system instruction unchanged, but `generate_text` always sends the
hard-coded default instruction regardless of configuration. -/
theorem system_instruction_amended (client : GeminiClient) (prompt : String)
    (conversation : List Content) :
    (generate_with_functions_request client prompt).system_instruction =
      client.system_instruction ∧
    (continue_request client conversation).system_instruction =
      client.system_instruction ∧
    (generate_text_request prompt).system_instruction = defaultSystemInstruction :=
  ⟨rfl, rfl, rfl⟩

/-- Counterexample to C8: a declaration requiring the undeclared
property "file_path" violates the subset condition, yet
`new_with_instructions` accepts it and stores it verbatim — it cannot
reject, its result type is `GeminiClient`, and `GeminiError` has no
ConfigurationError variant at all. -/
theorem construction_accepts_invalid_counterexample :
    required_subset_ok badDeclaration = false ∧
    (new_with_instructions "key" ⟨[]⟩ [badDeclaration]).functions = [badDeclaration] :=
  ⟨rfl, rfl⟩

/-- Claim C8 (corrected): construction performs no validation:
`new_with_instructions` stores every argument verbatim for any
declaration list whatsoever and never fails. -/
theorem construction_no_validation (api_key : String) (si : SystemInstruction)
    (fns : List FunctionDeclaration) :
    (new_with_instructions api_key si fns).functions = fns ∧
    (new_with_instructions api_key si fns).system_instruction = si ∧
    (new_with_instructions api_key si fns).api_key = api_key :=
  ⟨rfl, rfl, rfl⟩

/-- Claim C9 (confirmed): whenever `continue_with_function_result`
returns an error, the final conversation equals the initial one with
exactly the single function-result message appended — the append is the
only mutation and it happens before the request is sent. -/
theorem continue_state_on_error (client : GeminiClient) (transport : Transport)
    (conversation : List Content) (n : String) (v : Json) (e : GeminiError)
    (herr : (continue_with_function_result client transport conversation n v).2 =
      .error e) :
    (continue_with_function_result client transport conversation n v).1 =
      conversation ++ [{ role := "user", parts := [Part.functionResponse ⟨n, v⟩] }] :=
  rfl

/-- Witness for C9: against a failing transport the call errors, and
the conversation holds exactly the one appended message. -/
theorem continue_state_on_error_witness :
    (continue_with_function_result plainClient (fun _ => .error "connection refused")
        [] "f" .null).1 =
      [{ role := "user", parts := [Part.functionResponse ⟨"f", .null⟩] }] :=
  continue_state_on_error plainClient (fun _ => .error "connection refused") [] "f" .null
    (.networkError ("Request failed: " ++ "connection refused")) rfl

/-- Claim C10 (confirmed): a response body carrying an empty candidates
list decodes successfully, and `generate_with_functions` returns it as
a success with zero candidates rather than an error. -/
theorem empty_candidates_ok (client : GeminiClient) (transport : Transport)
    (prompt : String)
    (htr : transport (encodeRequest (generate_with_functions_request client prompt)) =
      .ok emptyCandidatesBody) :
    decodeResponse emptyCandidatesBody = some ⟨[]⟩ ∧
    generate_with_functions client transport prompt = .ok ⟨[]⟩ :=
  ⟨rfl, generate_content_ok client transport _ emptyCandidatesBody ⟨[]⟩ htr rfl⟩

/-- Witness for C10: a stub transport answering with an empty
candidates document makes `generate_with_functions` succeed with zero
candidates. -/
theorem empty_candidates_ok_witness :
    generate_with_functions plainClient (fun _ => .ok emptyCandidatesBody) "hi" =
      .ok ⟨[]⟩ :=
  (empty_candidates_ok plainClient (fun _ => .ok emptyCandidatesBody) "hi" rfl).2

end Gemini
